import Mathlib

/-
Verification of LIB_USGSDataRetrieval.py (USGS streamgage auto-retrieval client).

The module is shallow-embedded: pure string building is embedded as Lean
string functions; the pandas record set is embedded as an association list
from (outer label, inner label) column pairs to column values; the I/O of
the two download functions is embedded as an explicit list of effects in
program order; Python exceptions (KeyError / IndexError) are embedded as an
explicit `raised` outcome.
-/

namespace USGS

/-- Python substring test `pat in s` (membership of `pat` as a contiguous
substring of `s`). -/
def containsSub (s pat : String) : Bool :=
  (List.range (s.length + 1)).any (fun i => List.isPrefixOf pat.data (s.data.drop i))

/-- Python `s.startswith(pat)`. -/
def startsWithSub (s pat : String) : Bool :=
  List.isPrefixOf pat.data s.data

/-- Python `s.endswith(pat)`. -/
def endsWithSub (s pat : String) : Bool :=
  List.isSuffixOf pat.data s.data

/-- Number of occurrences of `pat` as a substring of `s` (counting start
positions). -/
def countSub (s pat : String) : Nat :=
  ((List.range (s.length + 1)).filter
    (fun i => List.isPrefixOf pat.data (s.data.drop i))).length

/-- `addSlash(text)`: appends a single slash (source line 41). -/
def addSlash (text : String) : String := text ++ "/"

/-- `genUSGSUrl(siteNo, dtype, startDT, endDT)` (source lines 44-69): the
time-series URL builder, fixed key order format, sites, startDT, endDT,
siteStatus. -/
def genUSGSUrl (siteNo dtype startDT endDT : String) : String :=
  let outformat := "rdb"
  let siteStatus := "all"
  let Url := "https://waterservices.usgs.gov/nwis/"
  let Url := Url ++ addSlash dtype
  let Url := Url ++ "?format=" ++ outformat ++ "&sites=" ++ siteNo ++ "&startDT="
      ++ startDT ++ "&endDT=" ++ endDT ++ "&siteStatus=" ++ siteStatus
  Url

/-- `genUSGS_WQData_Url(siteNo, dtype, paramgroup)` (source lines 97-121): the
water-quality URL builder, fixed key order site_no, agency_cd, param_group,
format. -/
def genUSGS_WQData_Url (siteNo dtype paramgroup : String) : String :=
  let outformat := "rdb"
  let Url := "https://nwis.waterdata.usgs.gov/nwis/"
  let Url := Url ++ addSlash dtype
  let Url := Url ++ "?site_no=" ++ siteNo ++ "&agency_cd=USGS&param_group="
      ++ paramgroup ++ "&format=" ++ outformat
  Url

/-- A fetched pandas record set: two-level column labels (outer label, inner
format code), each paired with the column values as strings. -/
structure RecordSet where
  columns : List ((String × String) × List String)
deriving DecidableEq

/-- `Df[outer][inner]`: the values of the column addressed by the label pair,
`none` when absent (pandas raises KeyError). -/
def RecordSet.getCol (Df : RecordSet) (outer inner : String) : Option (List String) :=
  (Df.columns.find? (fun c => c.fst.fst == outer && c.fst.snd == inner)).map Prod.snd

/-- `[item[0] for item in Df.columns]` (source line 173): outer column labels
in order. -/
def RecordSet.outerLabels (Df : RecordSet) : List String :=
  Df.columns.map (fun c => c.fst.fst)

/-- Outcome of `findUSGSCode`: a returned label, a bare `return` (Python
`None`), or an uncaught exception. -/
inductive FindResult where
  | found (label : String)
  | noResult
  | raised (msg : String)
deriving DecidableEq

/-- Outcome plus diagnostic messages printed on the way. -/
structure FindOutcome where
  result : FindResult
  messages : List String
deriving DecidableEq

/-- The tag-to-code mapping of `findUSGSCode` (source lines 158-167). -/
def paramCodeOf : String → Option String
  | "Q" => some "00060"
  | "Stage" => some "00065"
  | "Umean" => some "72294"
  | "Turbidity" => some "63680"
  | "Tempmean" => some "00010"
  | _ => none

/-- The two diagnostics printed for an unrecognized tag (source lines 169-170). -/
def invalidTagMsgs : List String :=
  ["Error in findUSGSCode!!! Parameter code not found!",
   "Please choose from: \"Q\", \"Stage\", \"Umean\", \"Turbidity\", \"Tempmean\", or edit this function to self define a parameter."]

/-- The diagnostic prefix printed when the code is absent from the dataset
(source line 176); Python `print` joins its arguments with single spaces. -/
def notInDatasetMsg (site : String) : String :=
  "Error in findUSGSCode!!! Parameter code not in the dataset!!! USGS site number: " ++ site

/-- The initial scan of source line 174: outer labels containing `paramCode`
and not ending in `_cd`. -/
def initialMatches (Df : RecordSet) (paramCode : String) : List String :=
  Df.outerLabels.filter (fun item => containsSub item paramCode && !endsWithSub item "_cd")

/-- The narrowing of source line 179: outer labels containing `00003` and not
ending in `_cd` (note: taken over all outer labels, not over the initial
matches). -/
def narrowedMatches (Df : RecordSet) : List String :=
  Df.outerLabels.filter (fun item => containsSub item "00003" && !endsWithSub item "_cd")

/-- `findUSGSCode(Df, paramType)` (source lines 154-181). `Df['site_no']['15s'].iloc[0]`
raises KeyError when the column is absent and IndexError when it is empty;
`result[0]` raises IndexError when `result` is empty. -/
def findUSGSCode (Df : RecordSet) (paramType : String) : FindOutcome :=
  match paramCodeOf paramType with
  | none => ⟨.noResult, invalidTagMsgs⟩
  | some paramCode =>
    if (initialMatches Df paramCode).length == 0 then
      match Df.getCol "site_no" "15s" with
      | none => ⟨.raised "KeyError", []⟩
      | some vals =>
        match vals.head? with
        | none => ⟨.raised "IndexError", []⟩
        | some site => ⟨.noResult, [notInDatasetMsg site]⟩
    else
      match (if (initialMatches Df paramCode).length > 1 then narrowedMatches Df
             else initialMatches Df paramCode).head? with
      | none => ⟨.raised "IndexError", []⟩
      | some label => ⟨.found label, []⟩

/-- One observable effect of a download call, in program order. -/
inductive Effect where
  | netGet (url : String)
  | fileWrite (path : String) (content : List String)
  | parseBody (source : String)
deriving DecidableEq

/-- Whether an effect is a network round-trip. -/
def Effect.isNet : Effect → Bool
  | .netGet _ => true
  | _ => false

/-- Whether an effect is a header-file write. -/
def Effect.isWrite : Effect → Bool
  | .fileWrite _ _ => true
  | _ => false

/-- Whether an effect is a parse of the tabular body. -/
def Effect.isParse : Effect → Bool
  | .parseBody _ => true
  | _ => false

/-- POSIX `os.path.join(a, b)` for two components, as used on source
lines 79 and 134. -/
def osPathJoin (a b : String) : String :=
  if startsWithSub b "/" then b
  else if a == "" then b
  else if endsWithSub a "/" then a ++ b
  else a ++ "/" ++ b

/-- The header side-file name `USGS<siteNo>_<dtype>_head.txt` (source
lines 79-81 and 134-136). -/
def headFileName (siteNo dtype : String) : String :=
  "USGS" ++ siteNo ++ "_" ++ dtype ++ "_head.txt"

/-- The header side-file path: joined onto `saveheaderparth` when given, else
the bare name in the current directory (source lines 78-81; the water-quality
variant wraps the bare name in a one-argument `os.path.join`, which is the
identity). -/
def outputHeadPath (saveheaderparth : Option String) (siteNo dtype : String) : String :=
  match saveheaderparth with
  | some p => osPathJoin p (headFileName siteNo dtype)
  | none => headFileName siteNo dtype

/-- The header-line classification of source lines 83-87 and 138-142: a
response line is a header line exactly when it contains the comment marker
byte `#`. -/
def headerLines (responseLines : List String) : List String :=
  responseLines.filter (fun line => containsSub line "#")

/-- The value-level result of `downloadUSGS` relevant to headers: the
returned `datahead` list, the side-file path, and the side-file content
written on source lines 88-90. -/
structure DownloadHeadResult where
  datahead : List String
  headPath : String
  headFileContent : List String
deriving DecidableEq

/-- Header handling of `downloadUSGS(siteNo, dtype, startDT, endDT,
saveheaderparth, printHeader)` (source lines 72-94), as a function of the
response lines streamed from the opened URL. -/
def downloadUSGS_head (siteNo dtype : String) (saveheaderparth : Option String)
    (responseLines : List String) : DownloadHeadResult :=
  let datahead := headerLines responseLines
  let outputHead := outputHeadPath saveheaderparth siteNo dtype
  ⟨datahead, outputHead, datahead⟩

/-- Header handling of `downloadUSGSWQ(siteNo, dtype, paramgroup,
saveheaderparth, printHeader)` (source lines 126-145), as a function of the
response lines streamed from the opened URL. -/
def downloadUSGSWQ_head (siteNo dtype : String) (saveheaderparth : Option String)
    (responseLines : List String) : DownloadHeadResult :=
  let datahead := headerLines responseLines
  let outputHead := outputHeadPath saveheaderparth siteNo dtype
  ⟨datahead, outputHead, datahead⟩

/-- Effect trace of `downloadUSGS` (source lines 72-94) in program order:
`urllib.request.urlopen(Url)` on line 82, the side-file write on lines 88-90,
then `pd.read_csv(Url, ...)` on line 91, which fetches the URL over the
network a second time and parses the body. -/
def downloadUSGS_trace (siteNo dtype startDT endDT : String)
    (saveheaderparth : Option String) (responseLines : List String) : List Effect :=
  let Url := genUSGSUrl siteNo dtype startDT endDT
  let datahead := headerLines responseLines
  let outputHead := outputHeadPath saveheaderparth siteNo dtype
  [Effect.netGet Url, Effect.fileWrite outputHead datahead,
   Effect.netGet Url, Effect.parseBody Url]

/-- Effect trace of `downloadUSGSWQ` (source lines 126-151) in program order:
`urllib.request.urlopen(Url)` on line 137, the side-file write on
lines 143-145, then `pd.read_csv(Url, ...)` on line 146, which fetches the
URL over the network a second time and parses the body. -/
def downloadUSGSWQ_trace (siteNo dtype paramgroup : String)
    (saveheaderparth : Option String) (responseLines : List String) : List Effect :=
  let Url := genUSGS_WQData_Url siteNo dtype paramgroup
  let datahead := headerLines responseLines
  let outputHead := outputHeadPath saveheaderparth siteNo dtype
  [Effect.netGet Url, Effect.fileWrite outputHead datahead,
   Effect.netGet Url, Effect.parseBody Url]

/-- Effect trace of `genUSGSUrl`: the function body is only string
concatenation (source lines 62-69), so the trace is empty. -/
def genUSGSUrl_run (siteNo dtype startDT endDT : String) : String × List Effect :=
  (genUSGSUrl siteNo dtype startDT endDT, [])

/-- Effect trace of `genUSGS_WQData_Url`: the function body is only string
concatenation (source lines 115-121), so the trace is empty. -/
def genUSGS_WQData_Url_run (siteNo dtype paramgroup : String) : String × List Effect :=
  (genUSGS_WQData_Url siteNo dtype paramgroup, [])

/-- One parsed row of a water-quality body: the `sample_dt` (format `10d`)
date field, and the `sample_tm` (format `5d`) time field, `none` when the
field is blank/missing (pandas reads a blank field as NaN). -/
structure WQRow where
  sample_dt : String
  sample_tm : Option String
deriving DecidableEq

/-- The fillna of source line 148: a missing/blank `sample_tm` becomes
`12:00`. -/
def fillTime : Option String → String
  | none => "12:00"
  | some t => t

/-- The timestamp string built on source line 149 for one row:
`sample_dt + ' ' + sample_tm + ':00'` after the fillna of line 148; this
string is what `pd.to_datetime` parses. -/
def wqDatetimeStr (r : WQRow) : String :=
  r.sample_dt ++ " " ++ fillTime r.sample_tm ++ ":00"

/-- The datetime construction of `downloadUSGSWQ` (source lines 148-150):
the per-row timestamp strings, in row order; line 150 sets this series as
the row index. -/
def downloadUSGSWQ_index (rows : List WQRow) : List String :=
  rows.map wqDatetimeStr

/-- A cell value as seen by the reloader: either a raw parsed string or a
timestamp obtained from `pd.to_datetime`. -/
inductive PdValue where
  | raw (s : String)
  | timestamp (s : String)
deriving DecidableEq

/-- `pd.to_datetime` on one cell: parses the underlying string into a
timestamp. -/
def pdToDatetime : PdValue → PdValue
  | .raw s => .timestamp s
  | .timestamp s => .timestamp s

/-- A reloaded frame: two-level column labels with `PdValue` cells. -/
structure PdFrame where
  cols : List ((String × String) × List PdValue)
deriving DecidableEq

/-- Outer (level-0) column labels of a reloaded frame. -/
def PdFrame.level0 (df : PdFrame) : List String :=
  df.cols.map (fun c => c.fst.fst)

/-- `df[outer][inner]` on a reloaded frame, `none` when absent (pandas
raises KeyError). -/
def PdFrame.getCol (df : PdFrame) (outer inner : String) : Option (List PdValue) :=
  (df.cols.find? (fun c => c.fst.fst == outer && c.fst.snd == inner)).map Prod.snd

/-- `df.drop([label], axis=1, level=0)`: removes every column whose outer
label equals `label`. -/
def PdFrame.dropLevel0 (df : PdFrame) (label : String) : PdFrame :=
  ⟨df.cols.filter (fun c => c.fst.fst != label)⟩

/-- `df[outer] = series` on a frame with two-level columns: overwrites the
column `(outer, "")` when present, else appends it. -/
def PdFrame.setCol (df : PdFrame) (key : String × String) (vals : List PdValue) : PdFrame :=
  if df.cols.any (fun c => c.fst == key) then
    ⟨df.cols.map (fun c => if c.fst == key then (key, vals) else c)⟩
  else
    ⟨df.cols ++ [(key, vals)]⟩

/-- Arguments the reloader passes to `pd.read_csv` (source line 184):
default comma separator, comment marker `#`, header rows 0 and 1, and the
skipped metadata row at index 2. -/
structure ReadCsvConfig where
  sep : String
  comment : Option Char
  headerRows : List Nat
  skiprows : List Nat
deriving DecidableEq

/-- The `pd.read_csv` configuration of `readDownloadedData` (source
line 184). -/
def readDownloadedData_config : ReadCsvConfig :=
  ⟨",", some '#', [0, 1], [2]⟩

/-- The conditional drop of source lines 185-186: when `datetime` occurs
among the level-0 labels, every column with outer label `datetime` is
dropped. -/
def dropExplicitDatetime (df : PdFrame) : PdFrame :=
  if df.level0.contains "datetime" then df.dropLevel0 "datetime" else df

/-- Post-parse processing of `readDownloadedData(fname)` (source
lines 183-188) on the frame produced by `pd.read_csv` with
`readDownloadedData_config`: drop any explicit `datetime` columns, then
rebuild `datetime` by parsing the placeholder column pair that pandas names
`Unnamed: 0_level_0` / `Unnamed: 0_level_1` for an unnamed saved index;
KeyError when that placeholder pair is absent. -/
def readDownloadedData (df : PdFrame) : Except String PdFrame :=
  let df := dropExplicitDatetime df
  match df.getCol "Unnamed: 0_level_0" "Unnamed: 0_level_1" with
  | none => .error "KeyError"
  | some vals => .ok (df.setCol ("datetime", "") (vals.map pdToDatetime))

/-- Appending produces a string containing the appended part as a substring. -/
theorem containsSub_append_right (a b : String) : containsSub (a ++ b) b = true := by
  unfold containsSub
  rw [List.any_eq_true]
  refine ⟨a.length, ?_, ?_⟩
  · rw [List.mem_range, String.length_append]
    omega
  · have hlen : a.length = a.data.length := rfl
    rw [String.data_append, hlen, List.drop_left, List.isPrefixOf_iff_prefix]

/-- C3: the two URL builders meet the spec's exact test vectors — the
time-series URL for site 07381590, type iv, 2021-01-01 to 2022-12-31, and the
water-quality URL for site 15565447, group SED — and each required query key
occurs exactly once in the built URL (the fixed key order is visible in the
right-hand side literals). -/
theorem urlBuilders_test_vectors :
    genUSGSUrl "07381590" "iv" "2021-01-01" "2022-12-31" =
      "https://waterservices.usgs.gov/nwis/" ++
        "iv/?format=rdb&sites=07381590&startDT=2021-01-01&endDT=2022-12-31&siteStatus=all" ∧
    genUSGS_WQData_Url "15565447" "qwdata" "SED" =
      "https://nwis.waterdata.usgs.gov/nwis/" ++
        "qwdata/?site_no=15565447&agency_cd=USGS&param_group=SED&format=rdb" ∧
    countSub (genUSGSUrl "07381590" "iv" "2021-01-01" "2022-12-31") "format=" = 1 ∧
    countSub (genUSGSUrl "07381590" "iv" "2021-01-01" "2022-12-31") "sites=" = 1 ∧
    countSub (genUSGSUrl "07381590" "iv" "2021-01-01" "2022-12-31") "startDT=" = 1 ∧
    countSub (genUSGSUrl "07381590" "iv" "2021-01-01" "2022-12-31") "endDT=" = 1 ∧
    countSub (genUSGSUrl "07381590" "iv" "2021-01-01" "2022-12-31") "siteStatus=" = 1 ∧
    countSub (genUSGS_WQData_Url "15565447" "qwdata" "SED") "site_no=" = 1 ∧
    countSub (genUSGS_WQData_Url "15565447" "qwdata" "SED") "agency_cd=" = 1 ∧
    countSub (genUSGS_WQData_Url "15565447" "qwdata" "SED") "param_group=" = 1 ∧
    countSub (genUSGS_WQData_Url "15565447" "qwdata" "SED") "format=" = 1 := by
  refine ⟨rfl, rfl, ?_, ?_, ?_, ?_, ?_, ?_, ?_, ?_, ?_⟩ <;> decide

/-- C9: the URL builders are deterministic pure functions — identical input
tuples give identical URL strings — and their effect-trace embedding records
no network or file effect. -/
theorem urlBuilders_pure_deterministic :
    (∀ s₁ d₁ a₁ b₁ s₂ d₂ a₂ b₂ : String, s₁ = s₂ → d₁ = d₂ → a₁ = a₂ → b₁ = b₂ →
      genUSGSUrl s₁ d₁ a₁ b₁ = genUSGSUrl s₂ d₂ a₂ b₂) ∧
    (∀ s₁ d₁ p₁ s₂ d₂ p₂ : String, s₁ = s₂ → d₁ = d₂ → p₁ = p₂ →
      genUSGS_WQData_Url s₁ d₁ p₁ = genUSGS_WQData_Url s₂ d₂ p₂) ∧
    (∀ s d a b : String, (genUSGSUrl_run s d a b).1 = genUSGSUrl s d a b ∧
      (genUSGSUrl_run s d a b).2 = []) ∧
    (∀ s d p : String, (genUSGS_WQData_Url_run s d p).1 = genUSGS_WQData_Url s d p ∧
      (genUSGS_WQData_Url_run s d p).2 = []) := by
  refine ⟨?_, ?_, ?_, ?_⟩
  · intro s₁ d₁ a₁ b₁ s₂ d₂ a₂ b₂ hs hd ha hb
    rw [hs, hd, ha, hb]
  · intro s₁ d₁ p₁ s₂ d₂ p₂ hs hd hp
    rw [hs, hd, hp]
  · intro s d a b
    exact ⟨rfl, rfl⟩
  · intro s d p
    exact ⟨rfl, rfl⟩

/-- Witness for C9 at the example site: the hypotheses are discharged by
`rfl` and the empty effect trace is read off the embedding. -/
theorem urlBuilders_pure_deterministic_witness :
    genUSGSUrl "07381590" "iv" "2021-01-01" "2022-12-31" =
      genUSGSUrl "07381590" "iv" "2021-01-01" "2022-12-31" ∧
    (genUSGSUrl_run "07381590" "iv" "2021-01-01" "2022-12-31").2 = [] :=
  ⟨urlBuilders_pure_deterministic.1 "07381590" "iv" "2021-01-01" "2022-12-31"
      "07381590" "iv" "2021-01-01" "2022-12-31" rfl rfl rfl rfl,
   (urlBuilders_pure_deterministic.2.2.1 "07381590" "iv" "2021-01-01" "2022-12-31").2⟩

/-- C4: in the water-quality parse, every row's index timestamp string is
the date field, a space, the (defaulted) time, and a literal `:00` suffix; a
blank time yields 12:00:00 on the row's date and an explicit time `t` yields
`t:00`. -/
theorem wq_time_defaulting (rows : List WQRow) (i : Nat) (r : WQRow)
    (h : rows[i]? = some r) :
    (downloadUSGSWQ_index rows)[i]? =
      some (r.sample_dt ++ " " ++ fillTime r.sample_tm ++ ":00") ∧
    (r.sample_tm = none →
      (downloadUSGSWQ_index rows)[i]? = some (r.sample_dt ++ " 12:00:00")) ∧
    (∀ t, r.sample_tm = some t →
      (downloadUSGSWQ_index rows)[i]? = some (r.sample_dt ++ " " ++ t ++ ":00")) := by
  have hmap : (downloadUSGSWQ_index rows)[i]? = some (wqDatetimeStr r) := by
    rw [downloadUSGSWQ_index, List.getElem?_map, h]
    rfl
  refine ⟨hmap, ?_, ?_⟩
  · intro hnone
    rw [hmap, wqDatetimeStr, hnone]
    rw [show fillTime none = "12:00" from rfl,
      String.append_assoc, String.append_assoc]
    rfl
  · intro t ht
    rw [hmap, wqDatetimeStr, ht]
    rfl

/-- Witness for C4: a two-row body where the first row has a blank time and
the second an explicit `08:30`. -/
theorem wq_time_defaulting_witness :
    (downloadUSGSWQ_index [⟨"2021-01-01", none⟩, ⟨"2021-01-02", some "08:30"⟩])[0]? =
      some "2021-01-01 12:00:00" ∧
    (downloadUSGSWQ_index [⟨"2021-01-01", none⟩, ⟨"2021-01-02", some "08:30"⟩])[1]? =
      some ("2021-01-02" ++ " " ++ "08:30" ++ ":00") :=
  ⟨(wq_time_defaulting [⟨"2021-01-01", none⟩, ⟨"2021-01-02", some "08:30"⟩]
      0 ⟨"2021-01-01", none⟩ rfl).2.1 rfl,
   (wq_time_defaulting [⟨"2021-01-01", none⟩, ⟨"2021-01-02", some "08:30"⟩]
      1 ⟨"2021-01-02", some "08:30"⟩ rfl).2.2 "08:30" rfl⟩

/-- C5: for every response consumed by either download function, the header
side-file content is exactly the lines containing the marker `#`, verbatim
and in original order (a sublist of the response with the membership
characterization), it equals the returned first component `datahead`, and it
is written to `USGS<siteNo>_<dtype>_head.txt` in the given directory, or the
current directory when none is given; the water-quality variant behaves
identically. -/
theorem header_extraction_exact (siteNo dtype : String) (hp : Option String)
    (lines : List String) :
    (downloadUSGS_head siteNo dtype hp lines).headFileContent =
      lines.filter (fun l => containsSub l "#") ∧
    (downloadUSGS_head siteNo dtype hp lines).headFileContent.Sublist lines ∧
    (∀ l, l ∈ (downloadUSGS_head siteNo dtype hp lines).headFileContent ↔
      l ∈ lines ∧ containsSub l "#" = true) ∧
    (downloadUSGS_head siteNo dtype hp lines).datahead =
      (downloadUSGS_head siteNo dtype hp lines).headFileContent ∧
    (hp = none → (downloadUSGS_head siteNo dtype hp lines).headPath =
      "USGS" ++ siteNo ++ "_" ++ dtype ++ "_head.txt") ∧
    (∀ p, hp = some p → (downloadUSGS_head siteNo dtype hp lines).headPath =
      osPathJoin p ("USGS" ++ siteNo ++ "_" ++ dtype ++ "_head.txt")) ∧
    downloadUSGSWQ_head siteNo dtype hp lines = downloadUSGS_head siteNo dtype hp lines := by
  refine ⟨rfl, ?_, ?_, rfl, ?_, ?_, rfl⟩
  · exact List.filter_sublist lines
  · intro l
    exact List.mem_filter
  · intro hnone
    rw [hnone]
    rfl
  · intro p hsome
    rw [hsome]
    rfl

/-- Witness for C5: a three-line response with two marker lines, no save
directory given. -/
theorem header_extraction_exact_witness :
    (downloadUSGS_head "07381590" "iv" none ["# h1", "data", "# h2"]).headFileContent =
      ["# h1", "# h2"] ∧
    (downloadUSGS_head "07381590" "iv" none ["# h1", "data", "# h2"]).headPath =
      "USGS" ++ "07381590" ++ "_" ++ "iv" ++ "_head.txt" := by
  refine ⟨?_, (header_extraction_exact "07381590" "iv" none
    ["# h1", "data", "# h2"]).2.2.2.2.1 rfl⟩
  rw [(header_extraction_exact "07381590" "iv" none ["# h1", "data", "# h2"]).1]
  decide

/-- C6: the locator's soft failures return no result rather than aborting:
with zero initial matches and a readable `site_no` column, it returns the
bare-`return` outcome with a diagnostic that contains the site identifier;
and for a tag outside the enumerated set it returns the bare-`return`
outcome with the invalid-tag diagnostics, independently of the Record
Set. -/
theorem findUSGSCode_soft_failures :
    (∀ (Df : RecordSet) (paramType code site : String) (vals : List String),
      paramCodeOf paramType = some code →
      initialMatches Df code = [] →
      Df.getCol "site_no" "15s" = some vals →
      vals.head? = some site →
      findUSGSCode Df paramType = ⟨.noResult, [notInDatasetMsg site]⟩ ∧
        containsSub (notInDatasetMsg site) site = true) ∧
    (∀ (Df Df₂ : RecordSet) (paramType : String),
      paramCodeOf paramType = none →
      findUSGSCode Df paramType = ⟨.noResult, invalidTagMsgs⟩ ∧
        findUSGSCode Df paramType = findUSGSCode Df₂ paramType) := by
  constructor
  · intro Df paramType code site vals hcode hzero hcol hhead
    constructor
    · simp only [findUSGSCode, hcode, hzero, hcol, hhead, List.length_nil]
      rfl
    · exact containsSub_append_right
        "Error in findUSGSCode!!! Parameter code not in the dataset!!! USGS site number: " site
  · intro Df Df₂ paramType h
    constructor
    · simp only [findUSGSCode, h]
    · simp only [findUSGSCode, h]

/-- Witness for C6: `Q` against a Record Set holding only a `site_no`
column (zero matches), and the unrecognized tag `Discharge`. -/
theorem findUSGSCode_soft_failures_witness :
    findUSGSCode ⟨[(("site_no", "15s"), ["09876543"])]⟩ "Q" =
      ⟨.noResult, [notInDatasetMsg "09876543"]⟩ ∧
    findUSGSCode ⟨[(("site_no", "15s"), ["09876543"])]⟩ "Discharge" =
      ⟨.noResult, invalidTagMsgs⟩ :=
  ⟨(findUSGSCode_soft_failures.1 ⟨[(("site_no", "15s"), ["09876543"])]⟩
      "Q" "00060" "09876543" ["09876543"] rfl (by decide) rfl rfl).1,
   (findUSGSCode_soft_failures.2 ⟨[(("site_no", "15s"), ["09876543"])]⟩
      ⟨[(("site_no", "15s"), ["09876543"])]⟩ "Discharge" rfl).1⟩

/-- Counterexample to C1: with outer labels `site_no`, `a_00060_00001`,
`a_00060_00002`, `b_00065_00003` and tag `Q` (code `00060`), the initial
scan finds two matches, yet the returned label `b_00065_00003` does not
contain `00060` — the narrowing is not a restriction of the initial match
set. -/
theorem findUSGSCode_narrowing_counterexample :
    1 < (initialMatches
      ⟨[(("site_no", "15s"), ["01234567"]),
        (("a_00060_00001", "14n"), []),
        (("a_00060_00002", "14n"), []),
        (("b_00065_00003", "14n"), [])]⟩ "00060").length ∧
    findUSGSCode
      ⟨[(("site_no", "15s"), ["01234567"]),
        (("a_00060_00001", "14n"), []),
        (("a_00060_00002", "14n"), []),
        (("b_00065_00003", "14n"), [])]⟩ "Q" = ⟨.found "b_00065_00003", []⟩ ∧
    containsSub "b_00065_00003" "00060" = false := by
  decide

/-- C1 amended: when the initial scan finds more than one match, the
returned outcome is decided by the list of ALL outer labels that contain
`00003` and do not end in `_cd` — not by a restriction of the initial match
set — and is that list's first element (IndexError when it is empty). -/
theorem findUSGSCode_narrowing_over_all_labels (Df : RecordSet)
    (paramType code : String)
    (hcode : paramCodeOf paramType = some code)
    (hgt : 1 < (initialMatches Df code).length) :
    findUSGSCode Df paramType =
      match (narrowedMatches Df).head? with
      | none => ⟨.raised "IndexError", []⟩
      | some label => ⟨.found label, []⟩ := by
  have h0 : ((initialMatches Df code).length == 0) = false := by
    rw [beq_eq_false_iff_ne]
    omega
  simp only [findUSGSCode, hcode, h0, Bool.false_eq_true, if_false, if_pos hgt]

/-- Witness for C1 amended at the counterexample's Record Set: the narrowed
list over all outer labels begins with `b_00065_00003`. -/
theorem findUSGSCode_narrowing_over_all_labels_witness :
    findUSGSCode
      ⟨[(("site_no", "15s"), ["01234567"]),
        (("a_00060_00001", "14n"), []),
        (("a_00060_00002", "14n"), []),
        (("b_00065_00003", "14n"), [])]⟩ "Q" =
      match (narrowedMatches
        ⟨[(("site_no", "15s"), ["01234567"]),
          (("a_00060_00001", "14n"), []),
          (("a_00060_00002", "14n"), []),
          (("b_00065_00003", "14n"), [])]⟩).head? with
      | none => ⟨.raised "IndexError", []⟩
      | some label => ⟨.found label, []⟩ :=
  findUSGSCode_narrowing_over_all_labels
    ⟨[(("site_no", "15s"), ["01234567"]),
      (("a_00060_00001", "14n"), []),
      (("a_00060_00002", "14n"), []),
      (("b_00065_00003", "14n"), [])]⟩ "Q" "00060" rfl (by decide)

/-- C2 is a code bug: with outer labels `site_no`, `x_00060_00001`,
`y_00060_00002` and tag `Q`, the initial scan finds two matches, the
narrowing (no label contains `00003`) is empty, and `result[0]` raises
IndexError — contradicting the documented never-throws contract for the
not-found cases. -/
theorem findUSGSCode_indexError_on_empty_narrowing :
    1 < (initialMatches
      ⟨[(("site_no", "15s"), ["01234567"]),
        (("x_00060_00001", "14n"), []),
        (("y_00060_00002", "14n"), [])]⟩ "00060").length ∧
    narrowedMatches
      ⟨[(("site_no", "15s"), ["01234567"]),
        (("x_00060_00001", "14n"), []),
        (("y_00060_00002", "14n"), [])]⟩ = [] ∧
    findUSGSCode
      ⟨[(("site_no", "15s"), ["01234567"]),
        (("x_00060_00001", "14n"), []),
        (("y_00060_00002", "14n"), [])]⟩ "Q" = ⟨.raised "IndexError", []⟩ := by
  decide

/-- Counterexample to C7: on a concrete fetch, the effect trace of
`downloadUSGS` contains two network round-trips, not one — the URL is opened
once to stream the header lines and fetched again by `pd.read_csv(Url)` for
the body. -/
theorem download_single_roundtrip_counterexample :
    (downloadUSGS_trace "07381590" "iv" "2021-01-01" "2022-12-31" none
      ["# a", "x"]).countP Effect.isNet = 2 ∧
    (downloadUSGS_trace "07381590" "iv" "2021-01-01" "2022-12-31" none
      ["# a", "x"]).countP Effect.isNet ≠ 1 := by
  decide

/-- C7 amended: every fetch-and-parse call performs exactly TWO network
round-trips, both to the built URL (one streaming the headers, one by the
parser re-reading the URL), one header-file write, and one parse of the
body; likewise for the water-quality variant. -/
theorem download_effect_counts (siteNo dtype startDT endDT paramgroup : String)
    (hp : Option String) (lines : List String) :
    ((downloadUSGS_trace siteNo dtype startDT endDT hp lines).countP Effect.isNet = 2 ∧
     (downloadUSGS_trace siteNo dtype startDT endDT hp lines).countP Effect.isWrite = 1 ∧
     (downloadUSGS_trace siteNo dtype startDT endDT hp lines).countP Effect.isParse = 1 ∧
     ∀ u, Effect.netGet u ∈ downloadUSGS_trace siteNo dtype startDT endDT hp lines →
       u = genUSGSUrl siteNo dtype startDT endDT) ∧
    ((downloadUSGSWQ_trace siteNo dtype paramgroup hp lines).countP Effect.isNet = 2 ∧
     (downloadUSGSWQ_trace siteNo dtype paramgroup hp lines).countP Effect.isWrite = 1 ∧
     (downloadUSGSWQ_trace siteNo dtype paramgroup hp lines).countP Effect.isParse = 1 ∧
     ∀ u, Effect.netGet u ∈ downloadUSGSWQ_trace siteNo dtype paramgroup hp lines →
       u = genUSGS_WQData_Url siteNo dtype paramgroup) := by
  refine ⟨⟨?_, ?_, ?_, ?_⟩, ⟨?_, ?_, ?_, ?_⟩⟩ <;>
    simp [downloadUSGS_trace, downloadUSGSWQ_trace, List.countP_cons,
      Effect.isNet, Effect.isWrite, Effect.isParse]

/-- Witness for C7 amended at the example fetch. -/
theorem download_effect_counts_witness :
    (downloadUSGS_trace "07381590" "iv" "2021-01-01" "2022-12-31" none
      ["# a", "x"]).countP Effect.isNet = 2 :=
  (download_effect_counts "07381590" "iv" "2021-01-01" "2022-12-31" "SED" none
    ["# a", "x"]).1.1

/-- C8: the reloader passes the two-row header convention, the comment
marker, and the skipped metadata row index 2 to the parser; an explicit
`datetime` level-0 column is dropped first (and nothing is dropped when
absent); the returned frame attaches a `datetime` column whose values parse
the placeholder column pair left for the unnamed saved index, and a missing
placeholder pair is a KeyError. -/
theorem readDownloadedData_reload :
    readDownloadedData_config.sep = "," ∧
    readDownloadedData_config.comment = some '#' ∧
    readDownloadedData_config.headerRows = [0, 1] ∧
    readDownloadedData_config.skiprows = [2] ∧
    (∀ df : PdFrame, df.level0.contains "datetime" = true →
      dropExplicitDatetime df = df.dropLevel0 "datetime") ∧
    (∀ df : PdFrame, df.level0.contains "datetime" = false →
      dropExplicitDatetime df = df) ∧
    (∀ (df : PdFrame) (vals : List PdValue),
      (dropExplicitDatetime df).getCol "Unnamed: 0_level_0" "Unnamed: 0_level_1" =
        some vals →
      readDownloadedData df =
        .ok ((dropExplicitDatetime df).setCol ("datetime", "") (vals.map pdToDatetime))) ∧
    (∀ df : PdFrame,
      (dropExplicitDatetime df).getCol "Unnamed: 0_level_0" "Unnamed: 0_level_1" = none →
      readDownloadedData df = .error "KeyError") := by
  refine ⟨rfl, rfl, rfl, rfl, ?_, ?_, ?_, ?_⟩
  · intro df h
    unfold dropExplicitDatetime
    rw [h]
    rfl
  · intro df h
    unfold dropExplicitDatetime
    rw [h]
    rfl
  · intro df vals h
    simp only [readDownloadedData, h]
  · intro df h
    simp only [readDownloadedData, h]

/-- Witness for C8: a frame saved with an explicit `datetime` column and the
placeholder index pair; the explicit column is dropped and `datetime` is
rebuilt by parsing the placeholder values. -/
theorem readDownloadedData_reload_witness :
    readDownloadedData
      ⟨[(("datetime", ""), [PdValue.timestamp "old"]),
        (("Unnamed: 0_level_0", "Unnamed: 0_level_1"), [PdValue.raw "2021-01-01 12:00:00"]),
        (("a_00060_00003", "14n"), [PdValue.raw "5"])]⟩ =
      .ok ((dropExplicitDatetime
        ⟨[(("datetime", ""), [PdValue.timestamp "old"]),
          (("Unnamed: 0_level_0", "Unnamed: 0_level_1"), [PdValue.raw "2021-01-01 12:00:00"]),
          (("a_00060_00003", "14n"), [PdValue.raw "5"])]⟩).setCol ("datetime", "")
        ([PdValue.raw "2021-01-01 12:00:00"].map pdToDatetime)) :=
  readDownloadedData_reload.2.2.2.2.2.2.1
    ⟨[(("datetime", ""), [PdValue.timestamp "old"]),
      (("Unnamed: 0_level_0", "Unnamed: 0_level_1"), [PdValue.raw "2021-01-01 12:00:00"]),
      (("a_00060_00003", "14n"), [PdValue.raw "5"])]⟩
    [PdValue.raw "2021-01-01 12:00:00"] (by decide)

/-- C10: in both download functions, the header side file is written — with
its full content, all marker lines — strictly before any parse effect: the
write effect lies in the trace segment taken before the first parse effect,
while a parse effect does occur later in the trace. A parse failure
therefore leaves the side file already written. -/
theorem header_write_precedes_parse (siteNo dtype startDT endDT paramgroup : String)
    (hp : Option String) (lines : List String) :
    (Effect.fileWrite (outputHeadPath hp siteNo dtype) (headerLines lines) ∈
      (downloadUSGS_trace siteNo dtype startDT endDT hp lines).takeWhile
        (fun e => !Effect.isParse e) ∧
     Effect.parseBody (genUSGSUrl siteNo dtype startDT endDT) ∈
      downloadUSGS_trace siteNo dtype startDT endDT hp lines) ∧
    (Effect.fileWrite (outputHeadPath hp siteNo dtype) (headerLines lines) ∈
      (downloadUSGSWQ_trace siteNo dtype paramgroup hp lines).takeWhile
        (fun e => !Effect.isParse e) ∧
     Effect.parseBody (genUSGS_WQData_Url siteNo dtype paramgroup) ∈
      downloadUSGSWQ_trace siteNo dtype paramgroup hp lines) := by
  refine ⟨⟨?_, ?_⟩, ⟨?_, ?_⟩⟩ <;>
    simp [downloadUSGS_trace, downloadUSGSWQ_trace, List.takeWhile_cons,
      Effect.isParse]

/-- Witness for C10 at the example fetch. -/
theorem header_write_precedes_parse_witness :
    Effect.fileWrite (outputHeadPath none "07381590" "iv") (headerLines ["# a", "x"]) ∈
      (downloadUSGS_trace "07381590" "iv" "2021-01-01" "2022-12-31" none
        ["# a", "x"]).takeWhile (fun e => !Effect.isParse e) :=
  (header_write_precedes_parse "07381590" "iv" "2021-01-01" "2022-12-31" "SED" none
    ["# a", "x"]).1.1

end USGS
